import Mathlib

/-!
Verification development for the business-intelligence MCP server.

The TypeScript sources are shallowly embedded: pure computations become Lean
functions over `ℚ`, `String` and lists; JavaScript's IEEE-style special values
(`NaN`, `±Infinity`), which several metric derivations can produce, are made
explicit through the `JSNum` type; SQLite aggregate rows are represented by the
lists of row values the aggregates range over; fallible code returns `Except`.
-/

/- ### JavaScript numeric semantics

`JSNum` models the JavaScript number values reachable by the arithmetic in
`analytics.ts` / `salesService.ts`: an ordinary (finite) number, `NaN`, or a
signed infinity (`inf true` is `+Infinity`).  Finite values are modelled
exactly over `ℚ`; every operation below follows the ECMAScript evaluation
rules for the corresponding operator. -/
inductive JSNum where
  | num : ℚ → JSNum
  | nan : JSNum
  | inf : Bool → JSNum
deriving DecidableEq, Repr

namespace JSNum

/-- JS unary negation. -/
def jneg : JSNum → JSNum
  | num a => num (-a)
  | nan => nan
  | inf s => inf (!s)

/-- JS addition: `NaN` absorbs; opposite infinities give `NaN`. -/
def jadd : JSNum → JSNum → JSNum
  | nan, _ => nan
  | _, nan => nan
  | inf s, inf t => if s = t then inf s else nan
  | inf s, num _ => inf s
  | num _, inf t => inf t
  | num a, num b => num (a + b)

/-- JS subtraction. -/
def jsub (x y : JSNum) : JSNum := jadd x (jneg y)

/-- JS multiplication: `NaN` absorbs; `0 × ∞ = NaN`; signs multiply. -/
def jmul : JSNum → JSNum → JSNum
  | nan, _ => nan
  | _, nan => nan
  | inf s, inf t => inf (s = t)
  | inf s, num b => if b = 0 then nan else inf (s = decide (0 < b))
  | num a, inf t => if a = 0 then nan else inf (t = decide (0 < a))
  | num a, num b => num (a * b)

/-- JS division: `0 / 0 = NaN`, `a / 0 = ±Infinity` for `a ≠ 0`,
`a / ±∞ = 0`, `±∞ / ±∞ = NaN`. -/
def jdiv : JSNum → JSNum → JSNum
  | nan, _ => nan
  | _, nan => nan
  | inf _, inf _ => nan
  | inf s, num b => inf (s = decide (0 ≤ b))
  | num _, inf _ => num 0
  | num a, num b =>
    if b = 0 then (if a = 0 then nan else inf (decide (0 < a))) else num (a / b)

/-- `Math.pow x n` for a natural exponent (`Math.pow x 0 = 1` even at `NaN`). -/
def jpow (x : JSNum) : ℕ → JSNum
  | 0 => num 1
  | n + 1 => jmul x (jpow x n)

/-- `Math.max(0, x)`: `NaN` propagates (it is *not* clamped). -/
def jmax0 : JSNum → JSNum
  | nan => nan
  | inf true => inf true
  | inf false => num 0
  | num a => num (max a 0)

/-- The JS comparison `x > 0` (false at `NaN`). -/
def gtZero : JSNum → Bool
  | nan => false
  | inf s => s
  | num a => decide (0 < a)

/-- "The value is a number ≥ 0" — false at `NaN` and `-Infinity`. -/
def NonNeg : JSNum → Prop
  | nan => False
  | inf s => s = true
  | num a => 0 ≤ a

instance : DecidablePred NonNeg := fun x => by
  cases x <;> simp [NonNeg] <;> infer_instance

/-- The JS `reduce((sum, v) => sum + v, 0)` over finite row values. -/
def sumList (l : List ℚ) : ℚ := l.foldl (· + ·) 0

/-- `reduce(...) / list.length` — the average as the engine computes it;
`0 / 0 = NaN` on an empty list, exactly as in JS. -/
def avgList (l : List ℚ) : JSNum := jdiv (num (sumList l)) (num l.length)

end JSNum

/- ### Filter compiler (`buildWhereClause`)

`analytics.ts` lines 778-810 — the private `buildWhereClause` of
`AnalyticsEngine`.  Filter values and date-range bounds are spliced into the
returned SQL text with template literals (`'${tier}'`); there is no bound
parameter list. -/

/-- The `Filters` bag (`analytics.ts` lines 17-23).  In TS each field is an
optional array; an absent field and an empty array behave identically in
`buildWhereClause` (`filters.x && filters.x.length > 0`), so both are `[]`. -/
structure Filters where
  customerTier : List String := []
  industry : List String := []
  region : List String := []
  productCategory : List String := []
  status : List String := []
deriving DecidableEq, Repr

/-- The `DateRange` bag (`analytics.ts` lines 12-15). -/
structure DateRange where
  start : Option String := none
  «end» : Option String := none
deriving DecidableEq, Repr

/-- `` v => `'${v}'` `` — a value spliced between single quotes. -/
def quoteVal (v : String) : String := "'" ++ v ++ "'"

/-- `` `col IN (${vals.map(v => `'${v}'`).join(', ')})` ``. -/
def inClause (col : String) (vals : List String) : String :=
  col ++ " IN (" ++ String.intercalate ", " (vals.map quoteVal) ++ ")"

/-- `AnalyticsEngine.buildWhereClause` (`analytics.ts` lines 778-810),
transliterated condition by condition. -/
def buildWhereClause (filters : Filters) (dateRange : DateRange) : String :=
  let conditions : List String :=
    (if filters.customerTier.length > 0 then
      [inClause "c.customer_tier" filters.customerTier] else []) ++
    (if filters.industry.length > 0 then
      [inClause "c.industry" filters.industry] else []) ++
    (if filters.region.length > 0 then
      [inClause "o.region" filters.region] else []) ++
    (if filters.productCategory.length > 0 then
      [inClause "p.category" filters.productCategory] else []) ++
    (if filters.status.length > 0 then
      [inClause "o.status" filters.status] else []) ++
    (match dateRange.start with
      | some s => ["o.order_date >= " ++ quoteVal s]
      | none => []) ++
    (match dateRange.«end» with
      | some e => ["o.order_date <= " ++ quoteVal e]
      | none => [])
  if conditions.length > 0 then "WHERE " ++ String.intercalate " AND " conditions
  else ""

/-- `SalesService.buildWhereClause` (`salesService.ts` lines 347-375): same
splicing, but with no `productCategory` branch. -/
def salesBuildWhereClause (filters : Filters) (dateRange : DateRange) : String :=
  let conditions : List String :=
    (if filters.customerTier.length > 0 then
      [inClause "c.customer_tier" filters.customerTier] else []) ++
    (if filters.industry.length > 0 then
      [inClause "c.industry" filters.industry] else []) ++
    (if filters.region.length > 0 then
      [inClause "o.region" filters.region] else []) ++
    (if filters.status.length > 0 then
      [inClause "o.status" filters.status] else []) ++
    (match dateRange.start with
      | some s => ["o.order_date >= " ++ quoteVal s]
      | none => []) ++
    (match dateRange.«end» with
      | some e => ["o.order_date <= " ++ quoteVal e]
      | none => [])
  if conditions.length > 0 then "WHERE " ++ String.intercalate " AND " conditions
  else ""

example : buildWhereClause { customerTier := ["gold"] } {} =
    "WHERE c.customer_tier IN ('gold')" := by rfl

example : buildWhereClause {} { start := some "2024-03-01", «end» := some "2024-01-01" } =
    "WHERE o.order_date >= '2024-03-01' AND o.order_date <= '2024-01-01'" := by rfl

/- ### SecurityManager (`security.ts`)

The untyped `filters` bag arriving over the wire is a JSON object; `JSVal`
models the JSON values that can appear in it. -/
inductive JSVal where
  | str : String → JSVal
  | numv : ℚ → JSVal
  | boolv : Bool → JSVal
  | nullv : JSVal
  | arr : List JSVal → JSVal

/-- `validFilterKeys` (`security.ts`, inside `validateFilters`). -/
def validFilterKeys : List String :=
  ["customerTier", "industry", "region", "productCategory", "status"]

/-- One key/value check of the `validateFilters` loop: unknown key → error;
array value with a non-string element → error. -/
def checkFilterEntry (key : String) (v : JSVal) : Except String Unit := do
  if key ∉ validFilterKeys then
    throw ("Invalid filter key: " ++ key)
  match v with
  | JSVal.arr elems =>
    if elems.all (fun e => match e with | JSVal.str _ => true | _ => false) then
      pure ()
    else
      throw ("Invalid filter value type for " ++ key)
  | _ => pure ()

/-- `SecurityManager.validateFilters` (`security.ts` lines 139-165): iterate
over the object's keys, failing on the first offending entry. -/
def validateFilters (filters : List (String × JSVal)) : Except String Unit :=
  match filters with
  | [] => pure ()
  | (k, v) :: rest => do
    checkFilterEntry k v
    validateFilters rest

/-- A run of decimal digits read as a number (`none` if empty or non-digit). -/
def digitsToNat (l : List Char) : Option ℕ :=
  if l ≠ [] ∧ l.all Char.isDigit then
    some (l.foldl (fun acc c => acc * 10 + (c.toNat - Char.toNat '0')) 0)
  else none

/-- Split a character list on `'-'` separators. -/
def splitDash (l : List Char) : List (List Char) :=
  match l with
  | [] => [[]]
  | c :: rest =>
    let r := splitDash rest
    if c = '-' then [] :: r
    else
      match r with
      | [] => [[c]]
      | h :: t => (c :: h) :: t

/-- ISO `YYYY-MM-DD` parsing, modelling the JS `new Date(s)` date-only parse
used by `isValidDate` / the range comparison (month 1-12, day 1-31). -/
def parseISODate (s : String) : Option (ℕ × ℕ × ℕ) :=
  match splitDash s.data with
  | [y, m, d] =>
    match digitsToNat y, digitsToNat m, digitsToNat d with
    | some yn, some mn, some dn =>
      if 1 ≤ mn ∧ mn ≤ 12 ∧ 1 ≤ dn ∧ dn ≤ 31 then some (yn, mn, dn) else none
    | _, _, _ => none
  | _ => none

/-- `SecurityManager.isValidDate`. -/
def isValidDate (s : String) : Bool := (parseISODate s).isSome

/-- Lexicographic (chronological) strict order on parsed `(year, month, day)`
triples. -/
def tripleBefore (x y : ℕ × ℕ × ℕ) : Bool :=
  x.1 < y.1 ∨ (x.1 = y.1 ∧ (x.2.1 < y.2.1 ∨ (x.2.1 = y.2.1 ∧ x.2.2 < y.2.2)))

/-- `new Date(a) > new Date(b)` for two valid dates: chronological order of
the parsed calendar triples. -/
def dateAfter (a b : String) : Bool :=
  match parseISODate a, parseISODate b with
  | some x, some y => tripleBefore y x
  | _, _ => false

/-- `SecurityManager.validateDateRange` (`security.ts` lines 111-132).
`none` models a call with no `dateRange` (the code returns `true` at once). -/
def validateDateRange (dateRange : Option DateRange) : Except String Unit := do
  match dateRange with
  | none => pure ()
  | some dr =>
    match dr.start with
    | some s => if !isValidDate s then throw "Invalid start date format" else pure ()
    | none => pure ()
    match dr.«end» with
    | some e => if !isValidDate e then throw "Invalid end date format" else pure ()
    | none => pure ()
    match dr.start, dr.«end» with
    | some s, some e =>
      if dateAfter s e then throw "Start date cannot be after end date" else pure ()
    | _, _ => pure ()

example : validateDateRange (some { start := some "2024-03-01", «end» := some "2024-01-01" }) =
    Except.error "Start date cannot be after end date" := by rfl

example : validateFilters [("foo", JSVal.arr [JSVal.str "bar"])] =
    Except.error "Invalid filter key: foo" := by rfl

/- ### Operation dispatcher (`index.ts`)

The `CallToolRequest` handler (`index.ts` lines 88-120) runs
`securityManager.validateRequest`, then the zod schema parse, then
`routeRequest`.  Neither `validateFilters` nor `validateDateRange` appears on
this path — `validateRequest` (`security.ts` lines 43-69) only checks the
request envelope and the tool name, and the zod schema types `filters` as
`z.record(z.any())`. -/

/-- The wire-level call: tool name, presence of the argument bag, and the
parsed argument fields relevant to dispatch. -/
structure CallRequest where
  name : String
  hasArguments : Bool := true
  operation : String
  filters : List (String × JSVal) := []
  dateRange : Option DateRange := none

/-- The 20-operation enum of `BusinessIntelligenceToolSchema` (`index.ts`
lines 30-51). -/
def operationEnum : List String :=
  ["get_customer_analytics", "get_sales_performance", "get_inventory_insights",
   "generate_business_report", "predict_sales_trends", "analyze_customer_behavior",
   "get_revenue_forecast", "identify_top_products", "analyze_market_segments",
   "get_operational_metrics", "search_customers", "get_customer_details",
   "update_customer_info", "check_inventory_levels", "get_product_performance",
   "create_sales_opportunity", "get_order_analytics", "analyze_geographic_sales",
   "get_financial_summary", "export_data"]

/-- `SecurityManager.validateRequest` (`security.ts` lines 43-69): envelope
present, `name`/`arguments` present, tool name on the allow-list.  It never
looks at `filters` or `dateRange`. -/
def validateRequest (req : CallRequest) : Except String Unit := do
  if req.name = "" ∨ !req.hasArguments then
    throw "Missing required parameters"
  if req.name ∉ ["business_intelligence"] then
    throw "Invalid tool name"

/-- The zod parse `BusinessIntelligenceToolSchema.parse(args)`: the operation
must be in the enum; `filters` is `z.record(z.any())` (anything passes);
`dateRange.start`/`.end` are optional strings (our representation is already
typed).  Any filter keys and any date ordering are accepted. -/
def schemaParse (req : CallRequest) : Except String Unit := do
  if req.operation ∉ operationEnum then
    throw ("Invalid enum value for operation: " ++ req.operation)

/-- Reading the typed `Filters` fields off the untyped record, as the
engine's property accesses (`filters.customerTier` …) do.  Only arrays of
strings flow into `buildWhereClause` on the inputs considered here. -/
def filterField (filters : List (String × JSVal)) (key : String) : List String :=
  match filters.lookup key with
  | some (JSVal.arr elems) =>
    elems.filterMap (fun e => match e with | JSVal.str s => some s | _ => none)
  | _ => []

/-- The filters record as `AnalyticsEngine` sees it. -/
def filtersOf (req : CallRequest) : Filters :=
  { customerTier := filterField req.filters "customerTier"
    industry := filterField req.filters "industry"
    region := filterField req.filters "region"
    productCategory := filterField req.filters "productCategory"
    status := filterField req.filters "status" }

/-- The WHERE-clause texts of the SQL queries the routed handler issues.
Only the operation exercised by the claims is traced:
`get_customer_analytics` (`analytics.ts` lines 36-68) issues four aggregate
queries, each interpolating the same `buildWhereClause` text. -/
def routedQueries (req : CallRequest) : List String :=
  if req.operation = "get_customer_analytics" then
    let w := buildWhereClause (filtersOf req) (req.dateRange.getD {})
    [w, w, w, w]
  else []

/-- The `CallToolRequestSchema` handler (`index.ts` lines 88-120) up to the
point where the routed handler has issued its queries: `validateRequest`,
then the schema parse, then `routeRequest`.  On success it returns the
WHERE-clause texts of the queries issued against the store. -/
def handleCallTool (req : CallRequest) : Except String (List String) := do
  validateRequest req
  schemaParse req
  pure (routedQueries req)

/- ### Ratio metrics (`analytics.ts`)

The SQL aggregates are represented by the list of rows they range over:
`COUNT(*)` is the list length, `COUNT(CASE WHEN status = s THEN 1 END)` the
number of rows with that status.  The JS division that follows is `jdiv`. -/

open JSNum in
/-- `fulfillmentRate = (delivered_orders / total_orders) * 100`
(`getOperationalMetrics`, `analytics.ts` line 604), over the filtered order
status list. -/
def fulfillmentRate (orderStatuses : List String) : JSNum :=
  jmul (jdiv (num ((orderStatuses.filter (· = "delivered")).length))
             (num orderStatuses.length))
       (num 100)

open JSNum in
/-- `cancellationRate = (cancelled_orders / total_orders) * 100`
(`getOperationalMetrics`, `analytics.ts` line 605). -/
def cancellationRate (orderStatuses : List String) : JSNum :=
  jmul (jdiv (num ((orderStatuses.filter (· = "cancelled")).length))
             (num orderStatuses.length))
       (num 100)

/-- The distinct customer ids of the filtered order set (SQL
`GROUP BY customer_id` of the `customerRetention` subquery). -/
def distinctCustomers (orderCustomerIds : List String) : List String :=
  match orderCustomerIds with
  | [] => []
  | c :: rest => c :: distinctCustomers (rest.filter (· ≠ c))
termination_by orderCustomerIds.length
decreasing_by
  simp only [List.length_cons]
  exact Nat.lt_succ_of_le (List.length_filter_le _ _)

open JSNum in
/-- `retentionRate = (repeat_customers / total_customers) * 100`
(`analyzeCustomerBehavior`, `analytics.ts` line 361): customers with more
than one order over the distinct customers of the filtered order set. -/
def retentionRate (orderCustomerIds : List String) : JSNum :=
  let distinct := distinctCustomers orderCustomerIds
  let repeats := distinct.filter
    (fun c => 1 < (orderCustomerIds.filter (· = c)).length)
  jmul (jdiv (num repeats.length) (num distinct.length)) (num 100)

open JSNum in
/-- `overallMargin = (totalProfit / financialMetrics.total_revenue) * 100`
(`getFinancialSummary`, `analytics.ts` line 743).  `total_revenue` is a SQL
`SUM`, which is `NULL` over an empty order set; JS coerces `null` to `0` in
the division. -/
def overallMargin (totalProfit : ℚ) (totalRevenue : Option ℚ) : JSNum :=
  jmul (jdiv (num totalProfit) (num (totalRevenue.getD 0))) (num 100)

/- ### Growth rates and forecasts (`analytics.ts`, `salesService.ts`)

`historicalData` is the monthly revenue series, most recent month first, as
returned by the `GROUP BY strftime('%Y-%m', ...) ORDER BY month DESC` query;
each group's `SUM(total_amount)` is a finite number. -/

open JSNum in
/-- `growthRate = ((recentAvg - olderAvg) / olderAvg) * 100`
(`predictSalesTrends`, `analytics.ts` lines 269-275): `slice(0, 6)` and
`slice(6, 12)` averages, with no guard on `olderAvg`. -/
def growthRateOf (historical : List ℚ) : JSNum :=
  let recentAvg := avgList (historical.take 6)
  let olderAvg := avgList ((historical.drop 6).take 6)
  jmul (jdiv (jsub recentAvg olderAvg) olderAvg) (num 100)

open JSNum in
/-- `SalesService.getSalesForecast` growth rate (`salesService.ts` line 202):
the same formula but guarded — `olderAvg > 0 ? … : 0`. -/
def salesGrowthRate (historical : List ℚ) : JSNum :=
  let recentAvg := avgList (historical.take 6)
  let olderAvg := avgList ((historical.drop 6).take 6)
  if gtZero olderAvg then
    jmul (jdiv (jsub recentAvg olderAvg) olderAvg) (num 100)
  else num 0

open JSNum in
/-- Forecast point `i` of `predictSalesTrends` (`analytics.ts` line 282,
additive extrapolation):
`Math.max(0, recentAvg * (1 + (growthRate / 100) * i))`. -/
def predictedRevenue (historical : List ℚ) (i : ℕ) : JSNum :=
  let recentAvg := avgList (historical.take 6)
  jmax0 (jmul recentAvg
    (jadd (num 1) (jmul (jdiv (growthRateOf historical) (num 100)) (num i))))

/-- Confidence of forecast point `i` of `predictSalesTrends`
(`analytics.ts` line 286): `Math.max(0.5, 1 - i * 0.1)`.  The floating-point
arithmetic is modelled exactly over `ℚ`. -/
def predictConfidence (i : ℕ) : ℚ := max (1 / 2) (1 - i * (1 / 10))

open JSNum in
/-- `getRevenueForecast` growth rate (`analytics.ts` lines 417-418):
`length > 1 ? ((m[0].revenue - m[1].revenue) / m[1].revenue) * 100 : 0`. -/
def revGrowthRate (monthly : List ℚ) : JSNum :=
  match monthly with
  | m0 :: m1 :: _ => jmul (jdiv (num (m0 - m1)) (num m1)) (num 100)
  | _ => num 0

open JSNum in
/-- Forecast point `i` of `getRevenueForecast` (`analytics.ts` line 425,
compounding extrapolation):
`Math.max(0, total_revenue * Math.pow(1 + growthRate / 100, i))`.
`total_revenue` is a SQL `SUM` (`NULL` when no orders; JS coerces to 0). -/
def forecastedRevenue (totalRevenue : Option ℚ) (monthly : List ℚ) (i : ℕ) : JSNum :=
  jmax0 (jmul (num (totalRevenue.getD 0))
    (jpow (jadd (num 1) (jdiv (revGrowthRate monthly) (num 100))) i))

/-- Confidence of forecast point `i` of `getRevenueForecast`
(`analytics.ts` line 429): `Math.max(0.3, 1 - i * 0.05)`. -/
def forecastConfidence (i : ℕ) : ℚ := max (3 / 10) (1 - i * (1 / 20))

/- ### Stock-status bucketing

The same SQL `CASE` appears in `AnalyticsEngine.getInventoryInsights`
(`analytics.ts` lines 186-190) and in `InventoryService.checkInventoryLevels`
(`salesService.ts` inventory service, lines 431-435); each is transliterated
separately so the two sites can be compared. -/

/-- The `CASE` of `getInventoryInsights`:
`quantity <= reorder_level` → Low; `<= reorder_level * 2` → Medium;
else High. -/
def insightsStockStatus (quantity reorderLevel : ℤ) : String :=
  if quantity ≤ reorderLevel then "Low Stock"
  else if quantity ≤ reorderLevel * 2 then "Medium Stock"
  else "High Stock"

/-- The `CASE` of `checkInventoryLevels` — the identical three-way rule. -/
def checkLevelsStockStatus (quantity reorderLevel : ℤ) : String :=
  if quantity ≤ reorderLevel then "Low Stock"
  else if quantity ≤ reorderLevel * 2 then "Medium Stock"
  else "High Stock"

/- ### Report assembler (`reportGenerator.ts`)

`generateRecommendations` concatenates the `recommendations` arrays of the
three invoked analytics operations and deduplicates with
`[...new Set(recommendations)]`; a JS `Set` iterates in insertion order, so
the spread keeps the first occurrence of each string. -/

/-- `[...new Set(l)]`: keep the first occurrence of each element, in order. -/
def dedupFirstSeen (l : List String) : List String :=
  match l with
  | [] => []
  | x :: rest => x :: dedupFirstSeen (rest.filter (· ≠ x))
termination_by l.length
decreasing_by
  simp only [List.length_cons]
  exact Nat.lt_succ_of_le (List.length_filter_le _ _)

/-- One entry of the implementation plan
(`generateImplementationPlan`, `reportGenerator.ts` lines 917-950). -/
structure PlanEntry where
  recommendation : String
  timeline : String
  resources : String
  priority : String
deriving DecidableEq, Repr

/-- The `plan` object with its three tiers. -/
structure ImplementationPlan where
  immediate : List PlanEntry
  shortTerm : List PlanEntry
  longTerm : List PlanEntry
deriving DecidableEq, Repr

/-- The fixed labels pushed for `index < 2`. -/
def immediateEntry (rec : String) : PlanEntry :=
  { recommendation := rec, timeline := "1-2 weeks",
    resources := "Internal team", priority := "High" }

/-- The fixed labels pushed for `2 <= index < 4`. -/
def shortTermEntry (rec : String) : PlanEntry :=
  { recommendation := rec, timeline := "1-3 months",
    resources := "Internal team + external consultants", priority := "Medium" }

/-- The fixed labels pushed for `index >= 4`. -/
def longTermEntry (rec : String) : PlanEntry :=
  { recommendation := rec, timeline := "3-6 months",
    resources := "Strategic planning team", priority := "Low" }

/-- The `recommendations.forEach((rec, index) => …)` loop, with the running
index made explicit; entries are pushed in traversal order. -/
def planAux (i : ℕ) (recs : List String) : ImplementationPlan :=
  match recs with
  | [] => { immediate := [], shortTerm := [], longTerm := [] }
  | r :: rest =>
    let tail := planAux (i + 1) rest
    if i < 2 then { tail with immediate := immediateEntry r :: tail.immediate }
    else if i < 4 then { tail with shortTerm := shortTermEntry r :: tail.shortTerm }
    else { tail with longTerm := longTermEntry r :: tail.longTerm }

/-- `ReportGenerator.generateImplementationPlan` (`reportGenerator.ts` lines
917-950). -/
def generateImplementationPlan (recommendations : List String) : ImplementationPlan :=
  planAux 0 recommendations

/-- The result object of `generateRecommendations`
(`reportGenerator.ts` lines 896-915). -/
structure ReportRecommendations where
  priority : List String
  all : List String
  implementation : ImplementationPlan
deriving DecidableEq, Repr

/-- `ReportGenerator.generateRecommendations`, parameterised by the
`recommendations` arrays of the three analytics results it merges
(`customerAnalytics`, `salesPerformance`, `inventoryInsights`). -/
def generateRecommendations (customerRecs salesRecs inventoryRecs : List String) :
    ReportRecommendations :=
  let recommendations := customerRecs ++ salesRecs ++ inventoryRecs
  let uniqueRecommendations := dedupFirstSeen recommendations
  { priority := uniqueRecommendations.take 5
    all := uniqueRecommendations
    implementation := generateImplementationPlan uniqueRecommendations }

/- ### Sales service (`salesService.ts` lines 17-65)

`createSalesOpportunity` runs two `SELECT`s (`this.get`, reads) and no `run`
(write); the relational store is threaded explicitly so that read/write
effects are visible.  Only the columns the modelled operations touch are
carried on the row types. -/

/-- A `customers` row (columns beyond those read by the modelled operations
are dropped). -/
structure Customer where
  id : String
  name : String := ""
  customerTier : String := "bronze"
  totalSpent : ℚ := 0
  status : String := "active"
deriving DecidableEq, Repr

/-- A `products` row. -/
structure Product where
  id : String
  name : String := ""
  category : String := ""
  price : ℚ := 0
  cost : ℚ := 0
  status : String := "active"
deriving DecidableEq, Repr

/-- The relational store as the sales service sees it. -/
structure Store where
  customers : List Customer
  products : List Product
deriving DecidableEq, Repr

/-- `SELECT * FROM customers WHERE id = ?`. -/
def findCustomer (store : Store) (customerId : String) : Option Customer :=
  store.customers.find? (fun c => c.id = customerId)

/-- `SELECT * FROM products WHERE id = ?`. -/
def findProduct (store : Store) (productId : String) : Option Product :=
  store.products.find? (fun p => p.id = productId)

/-- The `opportunityData` argument bag of `create_sales_opportunity`.
`quantity`/`estimatedValue` are JSON numbers; the `!x` required-field check
treats `0` (and the empty string) as missing. -/
structure OpportunityData where
  customerId : String
  productId : String
  quantity : ℚ
  estimatedValue : ℚ
  salesRepId : Option String := none
  notes : Option String := none
  priority : String := "medium"
deriving DecidableEq, Repr

/-- The in-memory opportunity object built on success
(`salesService.ts` lines 41-54). -/
structure Opportunity where
  id : String
  customerId : String
  productId : String
  quantity : ℚ
  estimatedValue : ℚ
  salesRepId : Option String
  notes : Option String
  priority : String
  status : String
  createdAt : String
  customer : Customer
  product : Product
deriving DecidableEq, Repr

/-- The success payload (`opportunity`, `message`, `nextSteps`). -/
structure OpportunityResult where
  opportunity : Opportunity
  message : String
  nextSteps : List String
deriving DecidableEq, Repr

/-- `SalesService.createSalesOpportunity` (`salesService.ts` lines 17-65).
`now` is `Date.now()` and `nowIso` is `new Date().toISOString()`; the store
is returned alongside the result so that the write footprint is explicit
(the function only ever calls `this.get`, never `this.run`). -/
def createSalesOpportunity (store : Store) (now : ℕ) (nowIso : String)
    (d : OpportunityData) : Except String OpportunityResult × Store :=
  if d.customerId = "" ∨ d.productId = "" ∨ d.quantity = 0 ∨ d.estimatedValue = 0 then
    (Except.error "Missing required fields: customerId, productId, quantity, estimatedValue",
     store)
  else
    match findCustomer store d.customerId with
    | none =>
      (Except.error ("Customer with ID " ++ d.customerId ++ " not found"), store)
    | some customer =>
      match findProduct store d.productId with
      | none =>
        (Except.error ("Product with ID " ++ d.productId ++ " not found"), store)
      | some product =>
        let opportunity : Opportunity :=
          { id := "OPP" ++ toString now
            customerId := d.customerId
            productId := d.productId
            quantity := d.quantity
            estimatedValue := d.estimatedValue
            salesRepId := d.salesRepId
            notes := d.notes
            priority := d.priority
            status := "open"
            createdAt := nowIso
            customer := customer
            product := product }
        (Except.ok
          { opportunity := opportunity
            message := "Sales opportunity created successfully"
            nextSteps :=
              ["Schedule follow-up call with customer",
               "Prepare product demonstration",
               "Create proposal document"] },
         store)

/- ### Helper lemmas -/

/-- `Math.max(0, x)` yields a value ≥ 0 whenever it is not `NaN`. -/
theorem jmax0_nonneg_of_ne_nan (x : JSNum) (h : JSNum.jmax0 x ≠ JSNum.nan) :
    JSNum.NonNeg (JSNum.jmax0 x) := by
  cases x with
  | num a => simp [JSNum.jmax0, JSNum.NonNeg, le_max_right]
  | nan => exact absurd rfl h
  | inf s => cases s <;> simp [JSNum.jmax0, JSNum.NonNeg]

/-- Membership is preserved by the insertion-order dedup. -/
theorem mem_dedupFirstSeen (l : List String) (a : String) :
    a ∈ dedupFirstSeen l ↔ a ∈ l := by
  induction l using dedupFirstSeen.induct with
  | case1 => simp [dedupFirstSeen]
  | case2 x rest ih =>
    rw [dedupFirstSeen]
    by_cases hax : a = x
    · simp [hax]
    · simp only [List.mem_cons, ih, List.mem_filter, hax, false_or,
        decide_eq_true_eq, ne_eq]
      tauto

/-- The insertion-order dedup never repeats a string. -/
theorem nodup_dedupFirstSeen (l : List String) : (dedupFirstSeen l).Nodup := by
  induction l using dedupFirstSeen.induct with
  | case1 => simp [dedupFirstSeen]
  | case2 x rest ih =>
    rw [dedupFirstSeen]
    refine List.Pairwise.cons (fun b hb => ?_) ih
    have hb' := (mem_dedupFirstSeen _ b).mp hb
    have : b ≠ x := by
      have := (List.mem_filter.mp hb').2
      simpa using this
    exact fun e => this e.symm

/-- Filtering does not change the relative order of surviving elements. -/
theorem indexOf_lt_of_filter_indexOf_lt (p : String → Bool) :
    ∀ (xs : List String) (a b : String), a ∈ xs.filter p → b ∈ xs.filter p →
      (xs.filter p).indexOf a < (xs.filter p).indexOf b →
      xs.indexOf a < xs.indexOf b := by
  intro xs
  induction xs with
  | nil => simp
  | cons y ys ih =>
    intro a b ha hb h
    by_cases hpy : p y
    · rw [List.filter_cons_of_pos hpy] at ha hb h
      by_cases hay : a = y
      · subst hay
        have hba : b ≠ a := by
          intro e; subst e; exact lt_irrefl _ h
        rw [List.indexOf_cons_self]
        rw [List.indexOf_cons_ne _ (fun e => hba e.symm)]
        exact Nat.succ_pos _
      · by_cases hby : b = y
        · subst hby
          rw [List.indexOf_cons_self] at h
          exact absurd h (Nat.not_lt_zero _)
        · rw [List.indexOf_cons_ne _ (fun e => hay e.symm),
            List.indexOf_cons_ne _ (fun e => hby e.symm)] at h
          rw [List.indexOf_cons_ne _ (fun e => hay e.symm),
            List.indexOf_cons_ne _ (fun e => hby e.symm)]
          have ha' : a ∈ ys.filter p := by
            rcases List.mem_cons.mp ha with e | m
            · exact absurd e hay
            · exact m
          have hb' : b ∈ ys.filter p := by
            rcases List.mem_cons.mp hb with e | m
            · exact absurd e hby
            · exact m
          exact Nat.succ_lt_succ (ih a b ha' hb' (Nat.lt_of_succ_lt_succ h))
    · rw [List.filter_cons_of_neg hpy] at ha hb h
      have hay : a ≠ y := by
        intro e; subst e
        exact hpy (List.mem_filter.mp ha).2
      have hby : b ≠ y := by
        intro e; subst e
        exact hpy (List.mem_filter.mp hb).2
      rw [List.indexOf_cons_ne _ (fun e => hay e.symm),
        List.indexOf_cons_ne _ (fun e => hby e.symm)]
      exact Nat.succ_lt_succ (ih a b ha hb h)

/-- The dedup keeps first occurrences: along its output, the position of the
first occurrence in the input list is strictly increasing. -/
theorem pairwise_indexOf_dedupFirstSeen (l : List String) :
    (dedupFirstSeen l).Pairwise (fun a b => l.indexOf a < l.indexOf b) := by
  induction l using dedupFirstSeen.induct with
  | case1 => simp [dedupFirstSeen]
  | case2 x rest ih =>
    rw [dedupFirstSeen]
    refine List.Pairwise.cons (fun b hb => ?_) ?_
    · have hb' := (mem_dedupFirstSeen _ b).mp hb
      have hbx : b ≠ x := by
        have := (List.mem_filter.mp hb').2
        simpa using this
      rw [List.indexOf_cons_self, List.indexOf_cons_ne _ (fun e => hbx e.symm)]
      exact Nat.succ_pos _
    · refine ih.imp_of_mem (fun {a b} ha hb hlt => ?_)
      have ha' := (mem_dedupFirstSeen _ a).mp ha
      have hb' := (mem_dedupFirstSeen _ b).mp hb
      have hax : a ≠ x := by
        have := (List.mem_filter.mp ha').2; simpa using this
      have hbx : b ≠ x := by
        have := (List.mem_filter.mp hb').2; simpa using this
      rw [List.indexOf_cons_ne _ (fun e => hax e.symm),
        List.indexOf_cons_ne _ (fun e => hbx e.symm)]
      exact Nat.succ_lt_succ
        (indexOf_lt_of_filter_indexOf_lt _ rest a b ha' hb' hlt)

/-- Past index 4 the `forEach` only ever pushes long-term entries. -/
theorem planAux_of_four_le (i : ℕ) (h : 4 ≤ i) (recs : List String) :
    planAux i recs =
      { immediate := [], shortTerm := [], longTerm := recs.map longTermEntry } := by
  induction recs generalizing i with
  | nil => rfl
  | cons r rest ih =>
    have h2 : ¬ i < 2 := by omega
    have h4 : ¬ i < 4 := by omega
    simp [planAux, h2, h4, ih (i + 1) (by omega)]

/-- The indexed `forEach` partition is the positional `take`/`drop` split. -/
theorem generateImplementationPlan_eq (recs : List String) :
    generateImplementationPlan recs =
      { immediate := (recs.take 2).map immediateEntry
        shortTerm := ((recs.drop 2).take 2).map shortTermEntry
        longTerm := (recs.drop 4).map longTermEntry } := by
  match recs with
  | [] => rfl
  | [a] => rfl
  | [a, b] => rfl
  | [a, b, c] => rfl
  | [a, b, c, d] => rfl
  | a :: b :: c :: d :: e :: rest =>
    show planAux 0 _ = _
    simp [planAux, planAux_of_four_le 5 (by omega) rest]

/- ### Claims -/

/-- C1: the Filter Compiler is claimed never to splice a filter or date value
into the query text, so the WHERE text should be identical for any two value
strings.  Evaluating `AnalyticsEngine.buildWhereClause` (and the
`SalesService` copy) at concrete inputs refutes this: the value characters
appear verbatim between quotes in the produced text, two different values
produce two different texts, and a value containing a quote rewrites the
clause structure itself. -/
theorem buildWhereClause_splices_filter_values :
    buildWhereClause { customerTier := ["gold"] } {} =
      "WHERE c.customer_tier IN ('gold')" ∧
    buildWhereClause { customerTier := ["silver"] } {} =
      "WHERE c.customer_tier IN ('silver')" ∧
    buildWhereClause { customerTier := ["gold"] } {} ≠
      buildWhereClause { customerTier := ["silver"] } {} ∧
    salesBuildWhereClause { region := ["x') OR ('1'='1"] } {} =
      "WHERE o.region IN ('x') OR ('1'='1')" := by
  refine ⟨rfl, rfl, ?_, rfl⟩
  decide

/-- C2: every ratio metric is claimed to be exactly 0 when its denominator
is 0.  Over an order set with zero orders the code instead computes
`0 / 0 = NaN`: `fulfillmentRate` and `cancellationRate` in
`getOperationalMetrics`, `retentionRate` in `analyzeCustomerBehavior`, and
`overallMargin` in `getFinancialSummary` are all `NaN`, which differs
from 0. -/
theorem ratioMetrics_nan_on_empty_orders :
    fulfillmentRate [] = JSNum.nan ∧
    cancellationRate [] = JSNum.nan ∧
    retentionRate [] = JSNum.nan ∧
    overallMargin 0 none = JSNum.nan ∧
    JSNum.nan ≠ JSNum.num 0 := by
  refine ⟨rfl, rfl, ?_, rfl, by decide⟩
  simp [retentionRate, distinctCustomers, JSNum.jdiv, JSNum.jmul]

/-- C3: a request whose filters contain the unknown key `"foo"` is claimed
to fail with `InvalidFilterKey` before any query is issued.  The dispatch
pipeline of `index.ts` (`validateRequest`, then the zod schema parse, then
`routeRequest`) accepts the request and the routed handler issues its four
queries, because `SecurityManager.validateFilters` — which would reject the
key — is never invoked on this path. -/
theorem dispatcher_accepts_unknown_filter_key :
    handleCallTool
      { name := "business_intelligence"
        operation := "get_customer_analytics"
        filters := [("foo", JSVal.arr [JSVal.str "bar"])] } =
      Except.ok ["", "", "", ""] ∧
    validateFilters [("foo", JSVal.arr [JSVal.str "bar"])] =
      Except.error "Invalid filter key: foo" := by
  exact ⟨rfl, rfl⟩

/-- C4: a `dateRange` with start `"2024-03-01"` after end `"2024-01-01"` is
claimed to fail with `InvalidDateRange` before any query executes.  The
dispatch pipeline accepts it and the routed handler issues its queries with
both bounds spliced into the WHERE text, because
`SecurityManager.validateDateRange` — which would reject the range — is
never invoked on this path. -/
theorem dispatcher_accepts_inverted_date_range :
    handleCallTool
      { name := "business_intelligence"
        operation := "get_customer_analytics"
        dateRange := some { start := some "2024-03-01", «end» := some "2024-01-01" } } =
      Except.ok
        ["WHERE o.order_date >= '2024-03-01' AND o.order_date <= '2024-01-01'",
         "WHERE o.order_date >= '2024-03-01' AND o.order_date <= '2024-01-01'",
         "WHERE o.order_date >= '2024-03-01' AND o.order_date <= '2024-01-01'",
         "WHERE o.order_date >= '2024-03-01' AND o.order_date <= '2024-01-01'"] ∧
    validateDateRange (some { start := some "2024-03-01", «end» := some "2024-01-01" }) =
      Except.error "Start date cannot be after end date" := by
  exact ⟨rfl, rfl⟩

/-- C5: the `predict_sales_trends` growth rate is claimed to be exactly 0
when the older half's average is 0 (including an empty older half), never
`NaN`/`Infinity`.  `AnalyticsEngine.predictSalesTrends` has no such guard:
with a single historical month the older half is empty and the rate is
`NaN`; with six recent revenue months followed by six zero-revenue months
the rate is `+Infinity`.  The sibling `SalesService.getSalesForecast` *does*
guard (`olderAvg > 0 ? … : 0`) and returns 0 on the same input. -/
theorem predictSalesTrends_growthRate_unguarded :
    growthRateOf [100] = JSNum.nan ∧
    growthRateOf [100, 100, 100, 100, 100, 100, 0, 0, 0, 0, 0, 0] = JSNum.inf true ∧
    salesGrowthRate [100] = JSNum.num 0 ∧
    salesGrowthRate [100, 100, 100, 100, 100, 100, 0, 0, 0, 0, 0, 0] = JSNum.num 0 := by
  refine ⟨?_, ?_, ?_, ?_⟩ <;>
    norm_num [growthRateOf, salesGrowthRate, JSNum.avgList, JSNum.sumList,
      JSNum.jdiv, JSNum.jsub, JSNum.jadd, JSNum.jneg, JSNum.jmul, JSNum.gtZero]

/-- C6 counterexample: over an empty historical series (a store with no
orders), forecast point 1 of `predict_sales_trends` is
`Math.max(0, NaN) = NaN`, which is not a value ≥ 0 — so not every
predicted revenue value is ≥ 0. -/
theorem predictedRevenue_nan_not_clamped :
    predictedRevenue [] 1 = JSNum.nan ∧
    ¬ JSNum.NonNeg (predictedRevenue [] 1) := by
  refine ⟨rfl, ?_⟩
  decide

/-- C6 (amended): forecast confidences are non-increasing in the forecast
index and never fall below the operation's floor (`0.5` for
`predict_sales_trends`, `0.3` for `get_revenue_forecast`); and every
predicted/forecasted revenue value that is a number (not `NaN`) is ≥ 0 —
the `Math.max(0, ·)` clamp covers every value except `NaN`, which it
propagates instead of clamping. -/
theorem forecast_confidence_and_clamp :
    (∀ (historical : List ℚ) (i : ℕ), predictedRevenue historical i ≠ JSNum.nan →
      JSNum.NonNeg (predictedRevenue historical i)) ∧
    (∀ (totalRevenue : Option ℚ) (monthly : List ℚ) (i : ℕ),
      forecastedRevenue totalRevenue monthly i ≠ JSNum.nan →
      JSNum.NonNeg (forecastedRevenue totalRevenue monthly i)) ∧
    (∀ i j : ℕ, i ≤ j → predictConfidence j ≤ predictConfidence i) ∧
    (∀ i : ℕ, 1 / 2 ≤ predictConfidence i) ∧
    (∀ i j : ℕ, i ≤ j → forecastConfidence j ≤ forecastConfidence i) ∧
    (∀ i : ℕ, 3 / 10 ≤ forecastConfidence i) := by
  refine ⟨fun historical i h => jmax0_nonneg_of_ne_nan _ h,
    fun totalRevenue monthly i h => jmax0_nonneg_of_ne_nan _ h,
    fun i j hij => ?_, fun i => le_max_left _ _,
    fun i j hij => ?_, fun i => le_max_left _ _⟩
  · refine max_le_max le_rfl ?_
    have : (i : ℚ) ≤ (j : ℚ) := by exact_mod_cast hij
    nlinarith
  · refine max_le_max le_rfl ?_
    have : (i : ℚ) ≤ (j : ℚ) := by exact_mod_cast hij
    nlinarith

/-- C6 witness: the amended theorem applied at concrete inputs — a 7-month
history for `predict_sales_trends` (point 1 is 200, clamped nonnegative),
a 2-month series and revenue 1000 for `get_revenue_forecast`, and concrete
confidence indices. -/
theorem forecast_confidence_and_clamp_witness :
    JSNum.NonNeg (predictedRevenue [100, 100, 100, 100, 100, 100, 50] 1) ∧
    JSNum.NonNeg (forecastedRevenue (some 1000) [100, 50] 2) ∧
    predictConfidence 2 ≤ predictConfidence 1 ∧
    (1 : ℚ) / 2 ≤ predictConfidence 3 ∧
    forecastConfidence 12 ≤ forecastConfidence 1 ∧
    (3 : ℚ) / 10 ≤ forecastConfidence 12 := by
  obtain ⟨h1, h2, h3, h4, h5, h6⟩ := forecast_confidence_and_clamp
  refine ⟨h1 _ 1 ?_, h2 _ _ 2 ?_, h3 1 2 (by decide), h4 3, h5 1 12 (by decide), h6 12⟩
  · norm_num [predictedRevenue, growthRateOf, JSNum.avgList, JSNum.sumList,
      JSNum.jdiv, JSNum.jsub, JSNum.jadd, JSNum.jneg, JSNum.jmul, JSNum.jmax0]
    decide
  · norm_num [forecastedRevenue, revGrowthRate, JSNum.jpow, JSNum.jdiv,
      JSNum.jadd, JSNum.jmul, JSNum.jmax0]
    decide

/-- C7: stock status is derived by the same three-way rule at both sites:
the SQL `CASE` of `getInventoryInsights` and of `checkInventoryLevels` agree
on every quantity/reorder-level pair, and the concrete buckets are
`(5, 5) ↦ Low`, `(9, 5) ↦ Medium`, `(11, 5) ↦ High` at both. -/
theorem stockStatus_consistent :
    (∀ quantity reorderLevel : ℤ,
      insightsStockStatus quantity reorderLevel =
        checkLevelsStockStatus quantity reorderLevel) ∧
    insightsStockStatus 5 5 = "Low Stock" ∧
    insightsStockStatus 9 5 = "Medium Stock" ∧
    insightsStockStatus 11 5 = "High Stock" ∧
    checkLevelsStockStatus 5 5 = "Low Stock" ∧
    checkLevelsStockStatus 9 5 = "Medium Stock" ∧
    checkLevelsStockStatus 11 5 = "High Stock" := by
  exact ⟨fun q r => rfl, rfl, rfl, rfl, rfl, rfl, rfl⟩

/-- C8: for every trio of merged recommendation lists, the Report
Assembler's combined `all` list has no duplicate strings, keeps exactly the
merged elements, and lists them in order of first occurrence in the merge
(first-occurrence positions strictly increase along it); the implementation
plan is the positional partition of that list into the first 2 (immediate),
next 2 (short-term) and remainder (long-term) with the fixed
timeline/resource/priority labels; and every immediate-tier recommendation
appears in the `all` list. -/
theorem reportRecommendations_spec
    (customerRecs salesRecs inventoryRecs : List String) :
    (generateRecommendations customerRecs salesRecs inventoryRecs).all.Nodup ∧
    (∀ a, a ∈ (generateRecommendations customerRecs salesRecs inventoryRecs).all ↔
      a ∈ customerRecs ++ salesRecs ++ inventoryRecs) ∧
    (generateRecommendations customerRecs salesRecs inventoryRecs).all.Pairwise
      (fun a b => (customerRecs ++ salesRecs ++ inventoryRecs).indexOf a <
        (customerRecs ++ salesRecs ++ inventoryRecs).indexOf b) ∧
    (generateRecommendations customerRecs salesRecs inventoryRecs).implementation =
      { immediate :=
          ((generateRecommendations customerRecs salesRecs inventoryRecs).all.take 2).map
            immediateEntry
        shortTerm :=
          (((generateRecommendations customerRecs salesRecs inventoryRecs).all.drop 2).take 2).map
            shortTermEntry
        longTerm :=
          ((generateRecommendations customerRecs salesRecs inventoryRecs).all.drop 4).map
            longTermEntry } ∧
    (∀ e, e ∈ (generateRecommendations customerRecs salesRecs inventoryRecs).implementation.immediate →
      e.recommendation ∈ (generateRecommendations customerRecs salesRecs inventoryRecs).all ∧
      e.timeline = "1-2 weeks" ∧
      e.resources = "Internal team" ∧ e.priority = "High") := by
  have hplan := generateImplementationPlan_eq
    (dedupFirstSeen (customerRecs ++ salesRecs ++ inventoryRecs))
  refine ⟨nodup_dedupFirstSeen _, fun a => mem_dedupFirstSeen _ a,
    pairwise_indexOf_dedupFirstSeen _, hplan, fun e he => ?_⟩
  have h2 : (generateRecommendations customerRecs salesRecs inventoryRecs).implementation.immediate =
      ((dedupFirstSeen (customerRecs ++ salesRecs ++ inventoryRecs)).take 2).map immediateEntry := by
    show (generateImplementationPlan
      (dedupFirstSeen (customerRecs ++ salesRecs ++ inventoryRecs))).immediate = _
    rw [hplan]
  rw [h2] at he
  obtain ⟨r, hr, rfl⟩ := List.mem_map.mp he
  exact ⟨List.mem_of_mem_take hr, rfl, rfl, rfl⟩

/-- C8 witness: the theorem applied to concrete lists with cross-operation
duplicates — the deduplicated `all` list is nodup and the first
immediate-tier entry's recommendation is in it. -/
theorem reportRecommendations_spec_witness :
    (generateRecommendations ["a", "b"] ["a", "c"] ["b", "d"]).all.Nodup ∧
    immediateEntry "a" ∈
      (generateRecommendations ["a", "b"] ["a", "c"] ["b", "d"]).implementation.immediate ∧
    (immediateEntry "a").recommendation ∈
      (generateRecommendations ["a", "b"] ["a", "c"] ["b", "d"]).all := by
  obtain ⟨h1, h2, h3, h4, h5⟩ := reportRecommendations_spec ["a", "b"] ["a", "c"] ["b", "d"]
  have hmem : immediateEntry "a" ∈
      (generateRecommendations ["a", "b"] ["a", "c"] ["b", "d"]).implementation.immediate := by
    rw [show (generateRecommendations ["a", "b"] ["a", "c"] ["b", "d"]).implementation =
      generateImplementationPlan (dedupFirstSeen ["a", "b", "a", "c", "b", "d"]) from rfl]
    rw [generateImplementationPlan_eq]
    simp [dedupFirstSeen]
  exact ⟨h1, hmem, (h5 _ hmem).1⟩

/-- C9: a `create_sales_opportunity` call that passes the required-field
check but references a `customerId` or `productId` with no matching row
fails with the corresponding not-found error, and the store after the
failed call is exactly the store before it. -/
theorem createSalesOpportunity_notFound
    (store : Store) (now : ℕ) (nowIso : String) (d : OpportunityData)
    (hc : d.customerId ≠ "") (hp : d.productId ≠ "")
    (hq : d.quantity ≠ 0) (he : d.estimatedValue ≠ 0)
    (hmiss : findCustomer store d.customerId = none ∨
      findProduct store d.productId = none) :
    ((createSalesOpportunity store now nowIso d).1 =
        Except.error ("Customer with ID " ++ d.customerId ++ " not found") ∨
      (createSalesOpportunity store now nowIso d).1 =
        Except.error ("Product with ID " ++ d.productId ++ " not found")) ∧
    (createSalesOpportunity store now nowIso d).2 = store := by
  have hfields : ¬ (d.customerId = "" ∨ d.productId = "" ∨
      d.quantity = 0 ∨ d.estimatedValue = 0) := by
    push_neg
    exact ⟨hc, hp, hq, he⟩
  unfold createSalesOpportunity
  rw [if_neg hfields]
  cases hfc : findCustomer store d.customerId with
  | none => exact ⟨Or.inl rfl, rfl⟩
  | some customer =>
    cases hfp : findProduct store d.productId with
    | none => exact ⟨Or.inr rfl, rfl⟩
    | some product =>
      rcases hmiss with h | h
      · exact absurd hfc (by rw [h]; exact fun e => Option.noConfusion e)
      · exact absurd hfp (by rw [h]; exact fun e => Option.noConfusion e)

/-- C9 witness: a store holding customer `CUST-001` and product `PROD-001`,
called with the absent customer id `CUST-404` — the call errors and the
store is unchanged. -/
theorem createSalesOpportunity_notFound_witness :
    ((createSalesOpportunity
        { customers := [{ id := "CUST-001" }], products := [{ id := "PROD-001" }] }
        123 "2024-01-01T00:00:00.000Z"
        { customerId := "CUST-404", productId := "PROD-001",
          quantity := 5, estimatedValue := 50000 }).1 =
      Except.error "Customer with ID CUST-404 not found" ∨
     (createSalesOpportunity
        { customers := [{ id := "CUST-001" }], products := [{ id := "PROD-001" }] }
        123 "2024-01-01T00:00:00.000Z"
        { customerId := "CUST-404", productId := "PROD-001",
          quantity := 5, estimatedValue := 50000 }).1 =
      Except.error "Product with ID PROD-001 not found") ∧
    (createSalesOpportunity
        { customers := [{ id := "CUST-001" }], products := [{ id := "PROD-001" }] }
        123 "2024-01-01T00:00:00.000Z"
        { customerId := "CUST-404", productId := "PROD-001",
          quantity := 5, estimatedValue := 50000 }).2 =
      { customers := [{ id := "CUST-001" }], products := [{ id := "PROD-001" }] } := by
  have h := createSalesOpportunity_notFound
    { customers := [{ id := "CUST-001" }], products := [{ id := "PROD-001" }] }
    123 "2024-01-01T00:00:00.000Z"
    { customerId := "CUST-404", productId := "PROD-001",
      quantity := 5, estimatedValue := 50000 }
    (by decide) (by decide) (by norm_num) (by norm_num) (Or.inl (by decide))
  obtain ⟨h1, h2⟩ := h
  refine ⟨?_, h2⟩
  simpa using h1

/-- C10: `create_sales_opportunity` never writes to the relational store —
on every input (success included) the store after the call equals the store
before it; on success the returned opportunity is constructed in memory
with id `"OPP" + Date.now()` and status `"open"`, embedding a customer and
product row read from the store, and is returned rather than persisted. -/
theorem createSalesOpportunity_no_write
    (store : Store) (now : ℕ) (nowIso : String) (d : OpportunityData) :
    (createSalesOpportunity store now nowIso d).2 = store ∧
    (∀ r, (createSalesOpportunity store now nowIso d).1 = Except.ok r →
      r.opportunity.id = "OPP" ++ toString now ∧
      r.opportunity.status = "open" ∧
      r.opportunity.customer ∈ store.customers ∧
      r.opportunity.product ∈ store.products) := by
  unfold createSalesOpportunity
  by_cases hfields : d.customerId = "" ∨ d.productId = "" ∨
      d.quantity = 0 ∨ d.estimatedValue = 0
  · rw [if_pos hfields]
    exact ⟨rfl, fun r hr => Except.noConfusion hr⟩
  · rw [if_neg hfields]
    cases hfc : findCustomer store d.customerId with
    | none => exact ⟨rfl, fun r hr => Except.noConfusion hr⟩
    | some customer =>
      cases hfp : findProduct store d.productId with
      | none => exact ⟨rfl, fun r hr => Except.noConfusion hr⟩
      | some product =>
        refine ⟨rfl, fun r hr => ?_⟩
        cases hr
        exact ⟨rfl, rfl, List.mem_of_find?_eq_some hfc,
          List.mem_of_find?_eq_some hfp⟩

/-- C10 witness: a successful call on a store holding the referenced rows —
the store is unchanged and the returned opportunity has id `"OPP123"` and
status `"open"`. -/
theorem createSalesOpportunity_no_write_witness :
    (createSalesOpportunity
        { customers := [{ id := "CUST-001" }], products := [{ id := "PROD-001" }] }
        123 "2024-01-01T00:00:00.000Z"
        { customerId := "CUST-001", productId := "PROD-001",
          quantity := 5, estimatedValue := 50000 }).2 =
      { customers := [{ id := "CUST-001" }], products := [{ id := "PROD-001" }] } ∧
    ∃ r, (createSalesOpportunity
        { customers := [{ id := "CUST-001" }], products := [{ id := "PROD-001" }] }
        123 "2024-01-01T00:00:00.000Z"
        { customerId := "CUST-001", productId := "PROD-001",
          quantity := 5, estimatedValue := 50000 }).1 = Except.ok r ∧
      r.opportunity.id = "OPP123" ∧ r.opportunity.status = "open" := by
  have h := createSalesOpportunity_no_write
    { customers := [{ id := "CUST-001" }], products := [{ id := "PROD-001" }] }
    123 "2024-01-01T00:00:00.000Z"
    { customerId := "CUST-001", productId := "PROD-001",
      quantity := 5, estimatedValue := 50000 }
  refine ⟨h.1, _, rfl, ?_, ?_⟩
  · exact (h.2 _ rfl).1
  · exact (h.2 _ rfl).2.1
